import Mathlib

/-!
Shallow embedding of `src/mon/ConfigKeyService.cc` (the quorum-coordinated
config-key service of a Ceph monitor).

Conventions of the embedding:
* Keys are `String`s; values are opaque byte blobs, modelled as `List Nat`
  (each element a byte 0..255).
* The committed key/value namespace (the slice of the monitor store under the
  fixed `CONFIG_PREFIX` namespace constant) is an association list iterated in
  list order by the store iterator; the namespace constant itself never appears
  because every operation in the source already scopes by it.
* The Paxos consensus collaborator is external to the repository (only its
  call sites are in the source), so it is modelled from the spec: a pending
  transaction of staged operations, a plugged ("proposals paused") flag, the
  queued finishers, a count of `trigger_propose` invocations and a log of the
  batches actually handed to consensus.
* Fallible C++ paths return error codes exactly as the source does
  (`-ENOENT = -2`, `-EFBIG = -27`, `EEXIST = 17`); `ceph_assert` failure is
  modelled as `Option.none`.
-/

namespace ConfigKey

/-- A value: an opaque byte blob (each entry one byte). -/
abbrev Value := List Nat

/-- The bytes of an ASCII string literal, used to build values and messages
as byte blobs. -/
def strBytes (s : String) : Value := s.data.map Char.toNat

/-- `key.find(p) == 0` in the source: the key starts with the given
character sequence. -/
def strHasPre (p s : String) : Bool := p.data.isPrefixOf s.data

/-- The committed namespace: keys with their committed values, in iterator
(ascending key) order. -/
abbrev Store := List (String × Value)

/-- `ConfigKeyService::store_get` via `MonitorDBStore::get`: the committed
value for the key, or none (the C++ call returns `-ENOENT` then). -/
def storeGet (st : Store) (key : String) : Option Value := st.lookup key

/-- `ConfigKeyService::store_exists` via `MonitorDBStore::exists`. -/
def storeExists (st : Store) (key : String) : Bool := (storeGet st key).isSome

/-- `ConfigKeyService::store_has_prefix`: iterate the namespace and return
true at the first key that starts with the prefix character sequence
(`key.find(p) != npos && p == 0`), false if the iterator is exhausted. -/
def storeHasPre (st : Store) (p : String) : Bool :=
  st.any (fun kv => strHasPre p kv.1)

/-- A mutation staged in the pending transaction (`t->put` / `t->erase`,
always under the fixed namespace constant). -/
inductive Op where
  | put (key : String) (value : Value)
  | erase (key : String)
deriving DecidableEq, Repr

/-- Modelled from the spec: the Paxos consensus collaborator, which is not
part of the repository source (only its call sites are). `pending` is the one
active batch returned by `get_pending_transaction`; `plugged` is the
"proposals paused" state reported by `is_plugged`; `finishers` are the
callbacks queued by `queue_pending_finisher` (modelled by the reply each one
would deliver); `proposeCalls` counts the invocations of `trigger_propose`;
`log` records, in order, each batch actually handed to consensus by a
propose. -/
structure PaxosState where
  pending : List Op
  plugged : Bool
  finishers : List (Int × String)
  proposeCalls : Nat
  log : List (List Op)
deriving DecidableEq, Repr

/-- Modelled from the spec: `Paxos::trigger_propose`. Every call is counted.
When proposals are paused (plugged) nothing is proposed; otherwise the
pending batch is handed to consensus and a fresh empty batch begins. -/
def triggerPropose (p : PaxosState) : PaxosState :=
  if p.plugged then
    { p with proposeCalls := p.proposeCalls + 1 }
  else
    { p with proposeCalls := p.proposeCalls + 1,
             log := p.log ++ [p.pending],
             pending := [] }

/-- `ConfigKeyService::store_put`: stage a put on the pending transaction,
queue the optional finisher, then call `trigger_propose`. -/
def storePut (key : String) (v : Value) (cb : Option (Int × String))
    (p : PaxosState) : PaxosState :=
  triggerPropose
    { p with pending := p.pending ++ [Op.put key v],
             finishers := p.finishers ++ cb.toList }

/-- `ConfigKeyService::store_delete` (the callback overload): stage an erase,
queue the optional finisher, then call `trigger_propose`. -/
def storeDelete (key : String) (cb : Option (Int × String))
    (p : PaxosState) : PaxosState :=
  triggerPropose
    { p with pending := p.pending ++ [Op.erase key],
             finishers := p.finishers ++ cb.toList }

/-- The erases staged by `ConfigKeyService::store_delete_prefix`: one for
every currently stored key that starts with the prefix, in iterator order. -/
def deletePreOps (st : Store) (p : String) : List Op :=
  (st.filter (fun kv => strHasPre p kv.1)).map (fun kv => Op.erase kv.1)

/-- `ConfigKeyService::store_delete_prefix`: stage an erase on the given
transaction for every currently stored key starting with the prefix; no
propose here. -/
def storeDeletePre (st : Store) (p : String) (px : PaxosState) : PaxosState :=
  { px with pending := px.pending ++ deletePreOps st p }

/-- `is_binary_string`: true when some byte is a control byte other than
newline or tab, or is at least 0x7f. The source tests a signed `char`, under
which bytes at or above 0x80 are negative, hence caught by the `c < 0x20`
branch, and byte 0x7f by the `c >= 0x7f` branch; on bytes 0..255 the test is
exactly the one below. -/
def isBinaryString (v : Value) : Bool :=
  v.any (fun c => (c < 0x20 && c != 10 && c != 9) || c ≥ 0x7f)

/-- The placeholder emitted by `store_dump` for a binary value, carrying the
byte length of the replaced value. -/
def dumpPlaceholder (n : Nat) : Value :=
  strBytes ("<<< binary blob of length " ++ toString n ++ " >>>")

/-- The per-entry emission of `store_dump`: binary values are replaced by the
placeholder, printable values are emitted unmodified. -/
def dumpEmit (v : Value) : Value :=
  if isBinaryString v then dumpPlaceholder v.length else v

/-- The iterator traversal of `store_dump`: with an empty filter the whole
namespace is enumerated; with a nonempty filter the iterator seeks to
`lower_bound(p)` (keys below `p` dropped, the store being in ascending key
order) and stops at the first key that does not start with `p`. -/
def dumpEntries (st : Store) (p : String) : List (String × Value) :=
  if p.isEmpty then st
  else (st.dropWhile (fun kv => decide (kv.1 < p))).takeWhile
    (fun kv => strHasPre p kv.1)

/-- `ConfigKeyService::store_dump`: the (key, emitted value) pairs written to
the formatter, in iterator order. The external JSON formatter is abstracted
away: the theorems are about the emitted entries. -/
def storeDump (st : Store) (p : String) : List (String × Value) :=
  (dumpEntries st p).map (fun kv => (kv.1, dumpEmit kv.2))

/-- `ConfigKeyService::store_list`: the keys written to the formatter array,
in iterator order (the external JSON formatter is abstracted away). -/
def storeList (st : Store) : List String := st.map (·.1)

/-- External `cpp_strerror` helper (common/errno, outside the repository):
its exact text is irrelevant to every claim, only that some description of
the code is interpolated into the message. -/
def cppStrerror (e : Int) : String := "error code " ++ toString e

/-- A decoded `MMonCommand` as seen by `service_dispatch` after the command
map has been parsed: the message source, the normalized command prefix field
(`verb` here), the `key` field, the optional `val` field and the attached
binary payload (`get_data`). Malformed commands (map parse failure) are
outside this type: the source drops them without reply. -/
structure MonCommand where
  srcIsMon : Bool
  verb : String
  key : String
  val : Option String
  payload : Value
deriving DecidableEq, Repr

/-- The service-visible state: the monitor role flags, the committed
namespace, the consensus collaborator and the configured
`mon_config_key_max_entry_size`. -/
structure SState where
  isLeader : Bool
  isPeon : Bool
  store : Store
  paxos : PaxosState
  maxEntrySize : Nat
deriving DecidableEq, Repr

/-- `ConfigKeyService::in_quorum`: leading or following. -/
def inQuorum (s : SState) : Bool := s.isLeader || s.isPeon

/-- The observable outcome of one `service_dispatch` call: the state after
the call (store, staged mutations, propose count), the synchronous reply (if
one was sent from this call frame), whether the request was forwarded to the
leader, whether it was parked on `wait_for_readable` for automatic
re-dispatch, and the boolean the function returns. -/
structure DispatchResult where
  state : SState
  reply : Option (Int × String × Value)
  forwarded : Bool
  parked : Bool
  retval : Bool
deriving DecidableEq, Repr

/-- The `out:` epilogue of `service_dispatch`: a reply is synthesized only
for externally originated requests (`!cmd->get_source().is_mon()`), and the
function returns `ret == 0`. -/
def outReply (s : SState) (c : MonCommand) (ret : Int) (msg : String)
    (rdata : Value) : DispatchResult :=
  { state := s,
    reply := if c.srcIsMon then none else some (ret, msg, rdata),
    forwarded := false,
    parked := false,
    retval := ret == 0 }

/-- The value bytes a put/set stages: the `val` field when present, else the
attached payload (`-i <file>`; an absent payload is the empty bufferlist). -/
def putData (c : MonCommand) : Value :=
  match c.val with
  | some v => strBytes v
  | none => c.payload

/-- `ConfigKeyService::service_dispatch` on a decoded command. Mirrors the
source control flow: quorum gate first (park on `wait_for_readable` with a
retry callback), then the prefix-string dispatch chain, then the `out:`
epilogue. Deferred replies of the write paths are the finishers queued on the
collaborator; the external list/dump formatter payloads are abstracted as the
entry sequences `storeList` / `storeDump`, flattened to bytes. -/
def serviceDispatch (s : SState) (c : MonCommand) : DispatchResult :=
  if ¬ inQuorum s then
    { state := s, reply := none, forwarded := false, parked := true,
      retval := false }
  else if c.verb = "config-key get" then
    match storeGet s.store c.key with
    | some v => outReply s c 0 ("obtained \x27" ++ c.key ++ "\x27") v
    | none =>
      outReply s c (-2)
        ("error obtaining \x27" ++ c.key ++ "\x27: " ++ cppStrerror (-2)) []
  else if c.verb = "config-key put" ∨ c.verb = "config-key set" then
    if ¬ s.isLeader then
      { state := s, reply := none, forwarded := true, parked := false,
        retval := true }
    else if (putData c).length > s.maxEntrySize then
      outReply s c (-27)
        ("error: entry size limited to " ++ toString s.maxEntrySize ++
          " bytes. Use \x27mon config key max entry size\x27 to manually adjust")
        []
    else
      { state := { s with
          paxos := storePut c.key (putData c) (some (0, "set " ++ c.key))
            s.paxos },
        reply := none, forwarded := false, parked := false, retval := true }
  else if c.verb = "config-key del" ∨ c.verb = "config-key rm" then
    if ¬ s.isLeader then
      { state := s, reply := none, forwarded := true, parked := false,
        retval := true }
    else if ¬ storeExists s.store c.key then
      outReply s c 0 ("no such key \x27" ++ c.key ++ "\x27") []
    else
      { state := { s with
          paxos := storeDelete c.key (some (0, "key deleted")) s.paxos },
        reply := none, forwarded := false, parked := false, retval := true }
  else if c.verb = "config-key exists" then
    if storeExists s.store c.key then
      outReply s c 0 ("key \x27" ++ c.key ++ "\x27 exists") []
    else
      outReply s c (-2) ("key \x27" ++ c.key ++ "\x27 doesn\x27t exist") []
  else if c.verb = "config-key list" ∨ c.verb = "config-key ls" then
    outReply s c 0 "" ((storeList s.store).flatMap strBytes)
  else if c.verb = "config-key dump" then
    outReply s c 0 ""
      ((storeDump s.store c.key).flatMap (fun kv => strBytes kv.1 ++ kv.2))
  else
    outReply s c 0 "" []

/-- `_get_dmcrypt_prefix`: `"dm-crypt/osd/" + stringify(uuid) + "/" + k`.
The uuid is kept in its stringified form. -/
def dmcryptPre (uuid : String) (k : String) : String :=
  "dm-crypt/osd/" ++ uuid ++ "/" ++ k

/-- The per-member daemon-private sub-namespace used by the OSD lifecycle
handlers: `"daemon-private/osd." + stringify(id) + "/"`. -/
def daemonPre (id : Int) : String :=
  "daemon-private/osd." ++ toString id ++ "/"

/-- `ConfigKeyService::validate_osd_destroy`: `-ENOENT` when neither
reserved sub-namespace of the member holds any key, else 0; reads only. -/
def validateOsdDestroy (id : Int) (uuid : String) (st : Store) : Int :=
  if ¬ storeHasPre st (dmcryptPre uuid "") ∧ ¬ storeHasPre st (daemonPre id)
  then -2
  else 0

/-- `ConfigKeyService::do_osd_destroy`: on the one pending transaction, stage
prefix-deletion of the dm-crypt sub-namespace, then of the daemon-private
sub-namespace, then call `trigger_propose` (once). -/
def doOsdDestroy (id : Int) (uuid : String) (st : Store)
    (p : PaxosState) : PaxosState :=
  triggerPropose
    (storeDeletePre st (daemonPre id)
      (storeDeletePre st (dmcryptPre uuid "") p))

/-- `ConfigKeyService::validate_osd_new`: 0 when no secret is stored under
the member dm-crypt key, `EEXIST` (positive 17) when the stored secret is
byte-equal to the proposed one (idempotent no-op), `-EEXIST` when it differs.
Reads only; the `store_get` failure path (err < 0 after a successful
existence check) is unrepresentable here because the modelled store is an
association list. -/
def validateOsdNew (uuid : String) (dmcryptKey : String) (st : Store) : Int :=
  match storeGet st (dmcryptPre uuid "luks") with
  | some existing => if existing = strBytes dmcryptKey then 17 else -17
  | none => 0

/-- `ConfigKeyService::do_osd_new`: `ceph_assert(paxos.is_plugged())`
(assert failure modelled as `none`), then `store_put` of the secret under
the member dm-crypt key with no finisher — and `store_put` itself calls
`trigger_propose`, as the source comments. -/
def doOsdNew (uuid : String) (dmcryptKey : String)
    (p : PaxosState) : Option PaxosState :=
  if p.plugged then
    some (storePut (dmcryptPre uuid "luks") (strBytes dmcryptKey) none p)
  else
    none

/-! Concrete states used by counterexamples and witnesses. -/

/-- An idle consensus collaborator: nothing pending, proposals running. -/
def pxIdle : PaxosState :=
  { pending := [], plugged := false, finishers := [], proposeCalls := 0,
    log := [] }

/-- An idle collaborator with proposals paused (plugged). -/
def pxPlugged : PaxosState := { pxIdle with plugged := true }

/-- A leader with an empty namespace. -/
def sLeader : SState :=
  { isLeader := true, isPeon := false, store := [], paxos := pxIdle,
    maxEntrySize := 65536 }

/-- A quorate follower (peon) with an empty namespace and a 4-byte entry
size limit. -/
def sPeon : SState :=
  { isLeader := false, isPeon := true, store := [], paxos := pxIdle,
    maxEntrySize := 4 }

/-- A member outside the quorum (neither leading nor following). -/
def sOut : SState :=
  { isLeader := false, isPeon := false, store := [], paxos := pxIdle,
    maxEntrySize := 65536 }

/-- C7: a command received while the member is neither leading nor following
is parked for automatic re-dispatch (the source registers a retry callback
with `paxos.wait_for_readable`), with no reply, no forward, no mutation of
any service state, and `service_dispatch` returns false; the suspension is
not an error reply. -/
theorem dispatch_not_quorate (s : SState) (c : MonCommand)
    (hl : s.isLeader = false) (hp : s.isPeon = false) :
    serviceDispatch s c =
      { state := s, reply := none, forwarded := false, parked := true,
        retval := false } := by
  simp [serviceDispatch, inQuorum, hl, hp]

/-- C7 witness: a concrete get command at a non-quorate member is parked. -/
theorem dispatch_not_quorate_witness :
    serviceDispatch sOut
        { srcIsMon := false, verb := "config-key get", key := "k",
          val := none, payload := [] } =
      { state := sOut, reply := none, forwarded := false, parked := true,
        retval := false } :=
  dispatch_not_quorate sOut
    { srcIsMon := false, verb := "config-key get", key := "k", val := none,
      payload := [] } rfl rfl

/-- C10: a well-formed command from an external source whose normalized
prefix matches none of the recognized config-key verbs falls through the
dispatch chain to the `out:` epilogue with `ret = 0`, an empty message and
an empty payload, leaving the state (store, pending transaction, propose
count) untouched. -/
theorem dispatch_unknown_verb (s : SState) (c : MonCommand)
    (hq : inQuorum s = true) (hext : c.srcIsMon = false)
    (h1 : c.verb ≠ "config-key get") (h2 : c.verb ≠ "config-key put")
    (h3 : c.verb ≠ "config-key set") (h4 : c.verb ≠ "config-key del")
    (h5 : c.verb ≠ "config-key rm") (h6 : c.verb ≠ "config-key exists")
    (h7 : c.verb ≠ "config-key list") (h8 : c.verb ≠ "config-key ls")
    (h9 : c.verb ≠ "config-key dump") :
    serviceDispatch s c =
      { state := s, reply := some (0, "", []), forwarded := false,
        parked := false, retval := true } := by
  simp [serviceDispatch, hq, hext, outReply, h1, h2, h3, h4, h5, h6, h7, h8,
    h9]

/-- C10 witness: a concrete unrecognized verb at the leader gets the empty
success reply. -/
theorem dispatch_unknown_verb_witness :
    serviceDispatch sLeader
        { srcIsMon := false, verb := "config-key frobnicate", key := "k",
          val := none, payload := [] } =
      { state := sLeader, reply := some (0, "", []), forwarded := false,
        parked := false, retval := true } :=
  dispatch_unknown_verb sLeader
    { srcIsMon := false, verb := "config-key frobnicate", key := "k",
      val := none, payload := [] }
    rfl rfl (by decide) (by decide) (by decide) (by decide) (by decide)
    (by decide) (by decide) (by decide) (by decide)

/-- C4: a del/rm of an absent key processed by the leader replies
success (0) with the "no such key" message, stages nothing, proposes
nothing and leaves the whole state (namespace included) unchanged. -/
theorem dispatch_del_absent (s : SState) (c : MonCommand)
    (hl : s.isLeader = true) (hext : c.srcIsMon = false)
    (hv : c.verb = "config-key del" ∨ c.verb = "config-key rm")
    (habs : storeGet s.store c.key = none) :
    serviceDispatch s c =
      { state := s,
        reply := some (0, "no such key \x27" ++ c.key ++ "\x27", []),
        forwarded := false, parked := false, retval := true } := by
  rcases hv with hv | hv <;>
    simp [serviceDispatch, inQuorum, hl, hv, hext, outReply, storeExists,
      habs]

/-- C4 witness: a concrete del of an absent key at the leader. -/
theorem dispatch_del_absent_witness :
    serviceDispatch sLeader
        { srcIsMon := false, verb := "config-key del", key := "k",
          val := none, payload := [] } =
      { state := sLeader,
        reply := some (0, "no such key \x27k\x27", []),
        forwarded := false, parked := false, retval := true } :=
  dispatch_del_absent sLeader
    { srcIsMon := false, verb := "config-key del", key := "k", val := none,
      payload := [] }
    rfl rfl (Or.inl rfl) rfl

/-- C3 counterexample: the claim says a well-formed exists query on an
absent key carries a success (0) status, but on an empty namespace the
source replies `-ENOENT` (-2). -/
theorem dispatch_exists_absent_cex :
    (serviceDispatch sLeader
        { srcIsMon := false, verb := "config-key exists", key := "k",
          val := none, payload := [] }).reply =
      some (-2, "key \x27k\x27 doesn\x27t exist", []) ∧ (-2 : Int) ≠ 0 := by
  constructor
  · rfl
  · decide

/-- C3 (amended): exists replies boolean-derived text describing presence,
with status 0 when the key is present and `-ENOENT` (-2) when it is absent
(so the NotFound code is also used to report exists = false), and in both
cases performs no mutation. -/
theorem dispatch_exists_spec (s : SState) (c : MonCommand)
    (hq : inQuorum s = true) (hv : c.verb = "config-key exists") :
    (storeExists s.store c.key = true →
      serviceDispatch s c =
        { state := s,
          reply := if c.srcIsMon then none
                   else some (0, "key \x27" ++ c.key ++ "\x27 exists", []),
          forwarded := false, parked := false, retval := true }) ∧
    (storeExists s.store c.key = false →
      serviceDispatch s c =
        { state := s,
          reply := if c.srcIsMon then none
                   else some (-2,
                     "key \x27" ++ c.key ++ "\x27 doesn\x27t exist", []),
          forwarded := false, parked := false, retval := false }) := by
  constructor <;> intro h <;>
    simp [serviceDispatch, hq, hv, h, outReply]

/-- C3 witness: the amended statement evaluated on a present and an absent
key. -/
theorem dispatch_exists_spec_witness :
    serviceDispatch
        { sLeader with store := [("k", strBytes "v")] }
        { srcIsMon := false, verb := "config-key exists", key := "k",
          val := none, payload := [] } =
      { state := { sLeader with store := [("k", strBytes "v")] },
        reply := some (0, "key \x27k\x27 exists", []),
        forwarded := false, parked := false, retval := true } :=
  (dispatch_exists_spec { sLeader with store := [("k", strBytes "v")] }
      { srcIsMon := false, verb := "config-key exists", key := "k",
        val := none, payload := [] } rfl rfl).1 rfl

/-- C2 counterexample: an oversized put (5 bytes against a 4-byte limit)
received by a quorate non-leader is forwarded to the leader, with no local
rejection — the claim says it is rejected locally and never forwarded. -/
theorem dispatch_put_too_large_peon_cex :
    (putData { srcIsMon := false, verb := "config-key put", key := "k",
               val := some "aaaaa", payload := ([] : Value) }).length >
      sPeon.maxEntrySize ∧
    serviceDispatch sPeon
        { srcIsMon := false, verb := "config-key put", key := "k",
          val := some "aaaaa", payload := [] } =
      { state := sPeon, reply := none, forwarded := true, parked := false,
        retval := true } := by
  constructor
  · decide
  · rfl

/-- C2 (amended): an oversized put/set is rejected synchronously with
`-EFBIG` (-27) before any staging and with no propose — but only when the
leader processes it; a quorate non-leader forwards the request (oversized
included) to the leader untouched, where the rejection then happens. -/
theorem dispatch_put_too_large (s : SState) (c : MonCommand)
    (hv : c.verb = "config-key put" ∨ c.verb = "config-key set")
    (hbig : (putData c).length > s.maxEntrySize) :
    (s.isLeader = true →
      serviceDispatch s c =
        { state := s,
          reply := if c.srcIsMon then none
                   else some (-27,
                     "error: entry size limited to " ++
                       toString s.maxEntrySize ++
                       " bytes. Use \x27mon config key max entry size\x27 to manually adjust",
                     []),
          forwarded := false, parked := false, retval := false }) ∧
    (s.isLeader = false → s.isPeon = true →
      serviceDispatch s c =
        { state := s, reply := none, forwarded := true, parked := false,
          retval := true }) := by
  constructor
  · intro hl
    rcases hv with hv | hv <;>
      simp [serviceDispatch, inQuorum, hl, hv, outReply, hbig]
  · intro hl hp
    rcases hv with hv | hv <;>
      simp [serviceDispatch, inQuorum, hl, hp, hv]

/-- C2 witness: the amended statement evaluated at the leader with a
concrete oversized put. -/
theorem dispatch_put_too_large_witness :
    serviceDispatch { sLeader with maxEntrySize := 4 }
        { srcIsMon := false, verb := "config-key put", key := "k",
          val := some "aaaaa", payload := [] } =
      { state := { sLeader with maxEntrySize := 4 },
        reply := some (-27,
          "error: entry size limited to 4 bytes. Use \x27mon config key max entry size\x27 to manually adjust",
          []),
        forwarded := false, parked := false, retval := false } :=
  (dispatch_put_too_large { sLeader with maxEntrySize := 4 }
      { srcIsMon := false, verb := "config-key put", key := "k",
        val := some "aaaaa", payload := [] }
      (Or.inl rfl) (by decide)).1 rfl

/-- C1 counterexample: with the collaborator plugged, do_osd_new does
invoke trigger_propose — once, through store_put — whereas the claim says
it stages the put without itself calling trigger_propose. -/
theorem doOsdNew_calls_propose_cex :
    pxPlugged.proposeCalls = 0 ∧
    (doOsdNew "u" "s" pxPlugged).map PaxosState.proposeCalls = some 1 := by
  constructor <;> rfl

/-- C1 (amended): do_osd_new requires the collaborator to be plugged
(asserting otherwise) and stages the put of the secret under the member
dm-crypt key; it does call trigger_propose, via store_put, but since
proposals are paused no proposal is issued (the committed-batch log is
untouched and the put stays pending) — the final propose remains the
responsibility of the caller. -/
theorem doOsdNew_spec (uuid sec : String) (p : PaxosState) :
    (p.plugged = false → doOsdNew uuid sec p = none) ∧
    (p.plugged = true →
      doOsdNew uuid sec p =
        some { p with
          pending := p.pending ++
            [Op.put (dmcryptPre uuid "luks") (strBytes sec)],
          proposeCalls := p.proposeCalls + 1 }) := by
  constructor <;> intro h <;>
    simp [doOsdNew, storePut, triggerPropose, h]

/-- C1 witness: the amended statement evaluated on a concrete plugged
collaborator. -/
theorem doOsdNew_spec_witness :
    doOsdNew "u" "sec" pxPlugged =
      some { pxPlugged with
        pending := [Op.put (dmcryptPre "u" "luks") (strBytes "sec")],
        proposeCalls := 1 } :=
  (doOsdNew_spec "u" "sec" pxPlugged).2 rfl

/-- C5: validate_osd_new returns the fresh-create code 0 when no secret is
stored for the uuid, the distinguished idempotent code `EEXIST` (+17, not
0) when the stored secret is byte-equal to the proposed one, and the
conflict code `-EEXIST` (-17) when it differs; it only reads the store
(its type returns just the code, so the stored secret is untouched). -/
theorem validateOsdNew_spec (uuid sec : String) (st : Store) :
    (storeGet st (dmcryptPre uuid "luks") = none →
      validateOsdNew uuid sec st = 0) ∧
    (storeGet st (dmcryptPre uuid "luks") = some (strBytes sec) →
      validateOsdNew uuid sec st = 17) ∧
    (∀ v, storeGet st (dmcryptPre uuid "luks") = some v →
      v ≠ strBytes sec → validateOsdNew uuid sec st = -17) ∧
    (17 : Int) ≠ 0 := by
  refine ⟨fun h => ?_, fun h => ?_, fun v h hne => ?_, by decide⟩ <;>
    simp [validateOsdNew, h]
  exact hne

/-- C5 witness: fresh create on the empty store, idempotent success on the
byte-equal stored secret, conflict on a differing one. -/
theorem validateOsdNew_spec_witness :
    validateOsdNew "u" "sec" [] = 0 ∧
    validateOsdNew "u" "sec" [(dmcryptPre "u" "luks", strBytes "sec")] = 17 ∧
    validateOsdNew "u" "other"
      [(dmcryptPre "u" "luks", strBytes "sec")] = -17 :=
  ⟨(validateOsdNew_spec "u" "sec" []).1 rfl,
   (validateOsdNew_spec "u" "sec"
      [(dmcryptPre "u" "luks", strBytes "sec")]).2.1 rfl,
   (validateOsdNew_spec "u" "other"
      [(dmcryptPre "u" "luks", strBytes "sec")]).2.2.1
     (strBytes "sec") rfl (by decide)⟩

/-- store_has_prefix is true exactly when some stored key starts with the
prefix. -/
theorem storeHasPre_iff (st : Store) (p : String) :
    storeHasPre st p = true ↔ ∃ kv ∈ st, strHasPre p kv.1 = true := by
  simp [storeHasPre, List.any_eq_true]

/-- C9: validate_osd_destroy succeeds (0) exactly when some stored key
starts with the member dm-crypt sub-namespace or some stored key starts
with the member daemon-private sub-namespace, and fails with `-ENOENT`
(-2) otherwise; it only reads the store (its type returns just the code). -/
theorem validateOsdDestroy_spec (id : Int) (uuid : String) (st : Store) :
    (validateOsdDestroy id uuid st = 0 ↔
      (∃ kv ∈ st, strHasPre (dmcryptPre uuid "") kv.1 = true) ∨
      (∃ kv ∈ st, strHasPre (daemonPre id) kv.1 = true)) ∧
    (validateOsdDestroy id uuid st = 0 ∨
      validateOsdDestroy id uuid st = -2) := by
  rw [← storeHasPre_iff st (dmcryptPre uuid ""),
    ← storeHasPre_iff st (daemonPre id)]
  cases ha : storeHasPre st (dmcryptPre uuid "") <;>
  cases hb : storeHasPre st (daemonPre id) <;>
  simp [validateOsdDestroy, ha, hb]

/-- C6: do_osd_destroy stages, on the one pending transaction, an erase for
every currently stored key under the member dm-crypt sub-namespace and
every currently stored key under the member daemon-private sub-namespace,
and calls trigger_propose exactly once, after both prefix-deletions are
queued — so (proposals running) the single batch handed to consensus holds
the previously pending operations together with both groups of erases, and
nothing stays pending. -/
theorem doOsdDestroy_spec (id : Int) (uuid : String) (st : Store)
    (p : PaxosState) :
    (doOsdDestroy id uuid st p).proposeCalls = p.proposeCalls + 1 ∧
    (∀ k v, (k, v) ∈ st →
      strHasPre (dmcryptPre uuid "") k = true ∨
        strHasPre (daemonPre id) k = true →
      Op.erase k ∈
        p.pending ++ deletePreOps st (dmcryptPre uuid "") ++
          deletePreOps st (daemonPre id)) ∧
    (p.plugged = false →
      (doOsdDestroy id uuid st p).log =
        p.log ++
          [p.pending ++ deletePreOps st (dmcryptPre uuid "") ++
            deletePreOps st (daemonPre id)] ∧
      (doOsdDestroy id uuid st p).pending = []) := by
  refine ⟨?_, ?_, fun hpl => ?_⟩
  · cases hpl : p.plugged <;>
      simp [doOsdDestroy, storeDeletePre, triggerPropose, hpl]
  · intro k v hkv hpre
    rcases hpre with hp1 | hp1
    · have hm : Op.erase k ∈ deletePreOps st (dmcryptPre uuid "") := by
        simp only [deletePreOps, List.mem_map, List.mem_filter]
        exact ⟨(k, v), ⟨hkv, hp1⟩, rfl⟩
      exact List.mem_append_left _ (List.mem_append_right _ hm)
    · have hm : Op.erase k ∈ deletePreOps st (daemonPre id) := by
        simp only [deletePreOps, List.mem_map, List.mem_filter]
        exact ⟨(k, v), ⟨hkv, hp1⟩, rfl⟩
      exact List.mem_append_right _ hm
  · constructor <;>
      simp [doOsdDestroy, storeDeletePre, triggerPropose, hpl]

/-- A namespace holding one key under each reserved sub-namespace of the
member (id 7, uuid "u") and one unrelated key. -/
def dStore : Store :=
  [("dm-crypt/osd/u/luks", strBytes "s"),
   ("daemon-private/osd.7/x", strBytes "t"),
   ("other", strBytes "o")]

/-- C6 witness: the destroy of member (7, "u") on the concrete namespace
proposes once, and the single batch holds the erases of both
sub-namespaces. -/
theorem doOsdDestroy_spec_witness :
    (doOsdDestroy 7 "u" dStore pxIdle).proposeCalls =
      pxIdle.proposeCalls + 1 ∧
    Op.erase "dm-crypt/osd/u/luks" ∈
      pxIdle.pending ++ deletePreOps dStore (dmcryptPre "u" "") ++
        deletePreOps dStore (daemonPre 7) ∧
    Op.erase "daemon-private/osd.7/x" ∈
      pxIdle.pending ++ deletePreOps dStore (dmcryptPre "u" "") ++
        deletePreOps dStore (daemonPre 7) ∧
    (doOsdDestroy 7 "u" dStore pxIdle).log =
      pxIdle.log ++
        [pxIdle.pending ++ deletePreOps dStore (dmcryptPre "u" "") ++
          deletePreOps dStore (daemonPre 7)] ∧
    (doOsdDestroy 7 "u" dStore pxIdle).pending = [] :=
  ⟨(doOsdDestroy_spec 7 "u" dStore pxIdle).1,
   (doOsdDestroy_spec 7 "u" dStore pxIdle).2.1 "dm-crypt/osd/u/luks"
     (strBytes "s") (by decide) (Or.inl (by decide)),
   (doOsdDestroy_spec 7 "u" dStore pxIdle).2.1 "daemon-private/osd.7/x"
     (strBytes "t") (by decide) (Or.inr (by decide)),
   ((doOsdDestroy_spec 7 "u" dStore pxIdle).2.2 rfl).1,
   ((doOsdDestroy_spec 7 "u" dStore pxIdle).2.2 rfl).2⟩

/-- C8: every (key, value) pair enumerated by store_dump is emitted through
the binary filter: a value holding a control byte other than newline (10)
or tab (9), or any byte at least 0x7f, is replaced by the placeholder
annotation carrying its byte length; a value with only printable bytes
(plus newline/tab) is emitted unmodified — and the binary test is exactly
that byte condition. -/
theorem storeDump_spec (st : Store) (p k : String) (v : Value)
    (h : (k, v) ∈ dumpEntries st p) :
    (k, dumpEmit v) ∈ storeDump st p ∧
    (isBinaryString v = true →
      dumpEmit v =
        strBytes ("<<< binary blob of length " ++ toString v.length ++
          " >>>")) ∧
    (isBinaryString v = false → dumpEmit v = v) ∧
    (isBinaryString v = true ↔
      ∃ c ∈ v, (c < 0x20 ∧ c ≠ 10 ∧ c ≠ 9) ∨ c ≥ 0x7f) := by
  refine ⟨?_, fun hb => ?_, fun hb => ?_, ?_⟩
  · exact List.mem_map.mpr ⟨(k, v), h, rfl⟩
  · simp [dumpEmit, hb, dumpPlaceholder]
  · simp [dumpEmit, hb]
  · simp [isBinaryString, List.any_eq_true, and_assoc]

/-- The namespace of the dump example: a binary blob and a printable
value. -/
def dumpStore : Store := [("bin", [0, 1]), ("txt", strBytes "hello\n")]

/-- C8 witness: on the concrete namespace the binary blob [0x00, 0x01] is
emitted as the length-2 placeholder. -/
theorem storeDump_spec_witness :
    ("bin", dumpEmit [0, 1]) ∈ storeDump dumpStore "" ∧
    (isBinaryString [0, 1] = true →
      dumpEmit [0, 1] =
        strBytes ("<<< binary blob of length " ++
          toString (([0, 1] : Value)).length ++ " >>>")) ∧
    (isBinaryString [0, 1] = false → dumpEmit [0, 1] = [0, 1]) ∧
    (isBinaryString [0, 1] = true ↔
      ∃ c ∈ ([0, 1] : Value), (c < 0x20 ∧ c ≠ 10 ∧ c ≠ 9) ∨ c ≥ 0x7f) :=
  storeDump_spec dumpStore "" "bin" [0, 1] (by decide)

end ConfigKey
